import Mathlib

/-!
Verification of the meditation-timer core of the buddhapages repository.

The main source file is `src/script.js` (Web-Audio scheduled-bell variant);
the repository also carries alternative strategy variants of the same timer
(a pre-rendered-WAV variant and a wake-lock variant, among others).  The
shallow embedding below translates the timer state object and the functions
`tick`, `startTimer`, `stopTimer`, `adjustTime`, `resetTimer`,
`playBellNow`, `initAudio`, `startKeepAlive`, `stopKeepAlive`,
`scheduleBell` and `cancelScheduledBell` of `script.js`, plus the guarded
`tick` of the WAV variant and the `stopTimer` of the silence-plus-bell WAV
variant, which differ from the main file in ways several claims turn on.

JavaScript numbers are modelled as `Int` (all arithmetic here is integral),
`null` fields as `Option`/`Bool` presence flags, and DOM display writes
(`updateDisplay`, button labels) are outside the model.  JS coercion of
`null` to `0` in arithmetic and JS truthiness of numbers are modelled
explicitly (`endTimeVal`, `jsTruthyOpt`).  Audible output is instrumented
as a natural-number count of bell firings returned alongside the state.
-/

namespace Buddha

/-- Ceiling of x / 1000 (the source's Math.ceil((endTime - now) / 1000)),
expressed through floor division as ceil(x/b) = -floor((-x)/b). -/
def ceilDiv1000 (x : Int) : Int := -((-x).fdiv 1000)

/-- Value of `timerState.endTime` as used in JS arithmetic: `null`
coerces to 0 in `timerState.endTime - now`. -/
def endTimeVal : Option Int → Int
  | none => 0
  | some t => t

/-- JS truthiness of a nullable number: `null` and `0` are falsy. -/
def jsTruthyOpt : Option Int → Bool
  | none => false
  | some t => t != 0

/-- State of the host AudioContext (`suspended` until resumed, as iOS
does by default; `running` otherwise). -/
inductive CtxState where
  | running : CtxState
  | suspended : CtxState
deriving DecidableEq, Repr

/-- The `timerState` object of `src/script.js` lines 27-36.  `interval`,
`keepAlive` and `scheduledBell` model whether the corresponding handle
(`interval`, `keepAliveAudio`, `scheduledBell`) is non-null. -/
structure TimerState where
  duration : Int
  remaining : Int
  endTime : Option Int
  isRunning : Bool
  interval : Bool
  audioContext : Option CtxState
  keepAlive : Bool
  scheduledBell : Bool
deriving DecidableEq, Repr

/-- Initial `timerState`: 10 minutes, idle, no handles. -/
def initialState : TimerState :=
  { duration := 600, remaining := 600, endTime := none, isRunning := false,
    interval := false, audioContext := none, keepAlive := false,
    scheduledBell := false }

/-- Model of `initAudio` of script.js: create the context if absent, resume it if
suspended. -/
def initAudio (s : TimerState) : TimerState :=
  match s.audioContext with
  | none => { s with audioContext := some .running }
  | some .suspended => { s with audioContext := some .running }
  | some .running => s

/-- Model of `startKeepAlive` of script.js: no-op when already present or when no
audio context exists; otherwise records the near-silent loop handle. -/
def startKeepAlive (s : TimerState) : TimerState :=
  if s.keepAlive then s
  else
    match s.audioContext with
    | none => s
    | some _ => { s with keepAlive := true }

/-- Model of `stopKeepAlive` of script.js: stop and drop the loop handle if present. -/
def stopKeepAlive (s : TimerState) : TimerState :=
  if s.keepAlive then { s with keepAlive := false } else s

/-- Model of `cancelScheduledBell` of script.js: stop and drop the pre-scheduled
oscillators if present. -/
def cancelScheduledBell (s : TimerState) : TimerState :=
  if s.scheduledBell then { s with scheduledBell := false } else s

/-- Model of `scheduleBell` of script.js: no-op without a context; otherwise cancel
any previous schedule and record fresh oscillators scheduled at
`ctx.currentTime + remaining`. -/
def scheduleBell (s : TimerState) : TimerState :=
  match s.audioContext with
  | none => s
  | some _ => { cancelScheduledBell s with scheduledBell := true }

/-- Model of `playBellNow` of script.js lines 149-158, instrumented with the number
of perceptible chimes the call produces: with no audio context it returns
without playing; with a suspended context it resumes the context and plays
the three-tone chime from the resume continuation; with a running context
it plays the chime directly. -/
def playBellNow (s : TimerState) : TimerState × Nat :=
  match s.audioContext with
  | none => (s, 0)
  | some .suspended => ({ s with audioContext := some .running }, 1)
  | some .running => (s, 1)

/-- Model of `tick` of script.js lines 185-205.  Note the source has no
`isRunning` guard: the remaining time is always recomputed from
`endTime` (with `null` coerced to 0) and the completion branch runs
whenever the recomputed value is ≤ 0.  The returned number counts
invocations of `playBellNow` (the completion-signal firings) made by
this call. -/
def tick (now : Int) (s : TimerState) : TimerState × Nat :=
  let rem := max 0 (ceilDiv1000 (endTimeVal s.endTime - now))
  let s1 := { s with remaining := rem }
  if rem ≤ 0 then
    let s2 := stopKeepAlive { s1 with isRunning := false, interval := false }
    let s3 := (playBellNow s2).1
    ({ s3 with scheduledBell := false, remaining := s3.duration }, 1)
  else
    (s1, 0)

/-- Model of `startTimer` of script.js lines 207-221. -/
def startTimer (now : Int) (s : TimerState) : TimerState :=
  let s1 := initAudio s
  let s2 := { s1 with isRunning := true,
                      endTime := some (now + s1.remaining * 1000) }
  let s3 := startKeepAlive s2
  let s4 := scheduleBell s3
  { s4 with interval := true }

/-- Model of `stopTimer` of script.js lines 223-233: flags down, end time cleared,
heartbeat cancelled, scheduled bell cancelled, keep-alive stopped.  The
source does not read the clock and does not touch `remaining`. -/
def stopTimer (s : TimerState) : TimerState :=
  let s1 := { s with isRunning := false, endTime := none }
  let s2 := if s1.interval then { s1 with interval := false } else s1
  stopKeepAlive (cancelScheduledBell s2)

/-- Adjustment unit: the source compares `type === 'min'`; any other value
takes the seconds branch. -/
inductive AdjType where
  | min : AdjType
  | sec : AdjType
deriving DecidableEq, Repr

/-- Model of `adjustTime` of script.js lines 243-269.  `Math.floor(duration/60)`
is floor division (`Int.fdiv`) and the JS `%` is the truncating remainder
(`Int.tmod`).  On a seconds carry the source snaps seconds to 0; on a
borrow it snaps seconds to 55.  The new total is committed only when it
is at least 5. -/
def adjustTime (ty : AdjType) (delta : Int) (s : TimerState) : TimerState :=
  if s.isRunning then s
  else
    let mins := s.duration.fdiv 60
    let secs := s.duration.tmod 60
    let (m, c) :=
      match ty with
      | .min => (max 0 (min 60 (mins + delta)), secs)
      | .sec =>
          let s2 := secs + delta
          if s2 ≥ 60 then (min 60 (mins + 1), 0)
          else if s2 < 0 then (max 0 (mins - 1), 55)
          else (mins, s2)
    let newDuration := m * 60 + c
    if newDuration ≥ 5 then
      { s with duration := newDuration, remaining := newDuration }
    else s

/-- Model of `resetTimer` of script.js lines 271-275: stop, then copy duration into
remaining. -/
def resetTimer (s : TimerState) : TimerState :=
  let s1 := stopTimer s
  { s1 with remaining := s1.duration }

/-- External trigger sources that can invoke `tick` in script.js: the
periodic `setInterval` heartbeat (delivered only while the handle is
live) and the visibilitychange handler (lines 236-241), which calls
`initAudio` and `tick` only when the page became visible and the timer
is running. -/
inductive Trigger where
  | intervalFire : Int → Trigger
  | visibilityVisible : Int → Trigger
deriving DecidableEq, Repr

/-- Deliver one trigger event to the timer, returning the new state and
the number of completion-signal firings it caused. -/
def fireTrigger (s : TimerState) : Trigger → TimerState × Nat
  | .intervalFire now => if s.interval then tick now s else (s, 0)
  | .visibilityVisible now =>
      if s.isRunning then tick now (initAudio s) else (s, 0)

/-- Deliver a list of trigger events in order, accumulating the number of
completion-signal firings. -/
def runTriggers (s : TimerState) : List Trigger → TimerState × Nat
  | [] => (s, 0)
  | ev :: rest =>
      let p := fireTrigger s ev
      let q := runTriggers p.1 rest
      (q.1, p.2 + q.2)

/-- The five operations of the timer state machine as invoked from the UI
and the heartbeat. -/
inductive Op where
  | start : Int → Op
  | stop : Op
  | tickOp : Int → Op
  | adjust : AdjType → Int → Op
  | reset : Op
deriving DecidableEq, Repr

/-- Apply one operation to the timer state (discarding bell
instrumentation). -/
def applyOp (s : TimerState) : Op → TimerState
  | .start now => startTimer now s
  | .stop => stopTimer s
  | .tickOp now => (tick now s).1
  | .adjust ty delta => adjustTime ty delta s
  | .reset => resetTimer s

/-- Run a list of operations from a state. -/
def runOps (s : TimerState) (ops : List Op) : TimerState :=
  ops.foldl applyOp s

/-- The four duration-adjustment buttons wired in script.js lines 286-289:
minutes plus or minus one, seconds plus or minus five. -/
inductive AdjBtn where
  | minUp : AdjBtn
  | minDown : AdjBtn
  | secUp : AdjBtn
  | secDown : AdjBtn
deriving DecidableEq, Repr

/-- Press one adjustment button. -/
def pressBtn (s : TimerState) : AdjBtn → TimerState
  | .minUp => adjustTime .min 1 s
  | .minDown => adjustTime .min (-1) s
  | .secUp => adjustTime .sec 5 s
  | .secDown => adjustTime .sec (-5) s

/-- Press a list of adjustment buttons in order. -/
def runBtns (s : TimerState) (bs : List AdjBtn) : TimerState :=
  bs.foldl pressBtn s

/-! Projection lemmas: which fields each helper leaves untouched. -/

@[simp] lemma initAudio_duration (s : TimerState) :
    (initAudio s).duration = s.duration := by
  unfold initAudio; split <;> rfl

@[simp] lemma initAudio_remaining (s : TimerState) :
    (initAudio s).remaining = s.remaining := by
  unfold initAudio; split <;> rfl

@[simp] lemma initAudio_isRunning (s : TimerState) :
    (initAudio s).isRunning = s.isRunning := by
  unfold initAudio; split <;> rfl

@[simp] lemma initAudio_interval (s : TimerState) :
    (initAudio s).interval = s.interval := by
  unfold initAudio; split <;> rfl

@[simp] lemma initAudio_endTime (s : TimerState) :
    (initAudio s).endTime = s.endTime := by
  unfold initAudio; split <;> rfl

@[simp] lemma startKeepAlive_duration (s : TimerState) :
    (startKeepAlive s).duration = s.duration := by
  unfold startKeepAlive; split
  · rfl
  · split <;> rfl

@[simp] lemma startKeepAlive_remaining (s : TimerState) :
    (startKeepAlive s).remaining = s.remaining := by
  unfold startKeepAlive; split
  · rfl
  · split <;> rfl

@[simp] lemma startKeepAlive_isRunning (s : TimerState) :
    (startKeepAlive s).isRunning = s.isRunning := by
  unfold startKeepAlive; split
  · rfl
  · split <;> rfl

@[simp] lemma startKeepAlive_interval (s : TimerState) :
    (startKeepAlive s).interval = s.interval := by
  unfold startKeepAlive; split
  · rfl
  · split <;> rfl

@[simp] lemma startKeepAlive_endTime (s : TimerState) :
    (startKeepAlive s).endTime = s.endTime := by
  unfold startKeepAlive; split
  · rfl
  · split <;> rfl

@[simp] lemma stopKeepAlive_duration (s : TimerState) :
    (stopKeepAlive s).duration = s.duration := by
  unfold stopKeepAlive; split <;> rfl

@[simp] lemma stopKeepAlive_remaining (s : TimerState) :
    (stopKeepAlive s).remaining = s.remaining := by
  unfold stopKeepAlive; split <;> rfl

@[simp] lemma stopKeepAlive_isRunning (s : TimerState) :
    (stopKeepAlive s).isRunning = s.isRunning := by
  unfold stopKeepAlive; split <;> rfl

@[simp] lemma stopKeepAlive_interval (s : TimerState) :
    (stopKeepAlive s).interval = s.interval := by
  unfold stopKeepAlive; split <;> rfl

@[simp] lemma stopKeepAlive_endTime (s : TimerState) :
    (stopKeepAlive s).endTime = s.endTime := by
  unfold stopKeepAlive; split <;> rfl

@[simp] lemma cancelScheduledBell_duration (s : TimerState) :
    (cancelScheduledBell s).duration = s.duration := by
  unfold cancelScheduledBell; split <;> rfl

@[simp] lemma cancelScheduledBell_remaining (s : TimerState) :
    (cancelScheduledBell s).remaining = s.remaining := by
  unfold cancelScheduledBell; split <;> rfl

@[simp] lemma cancelScheduledBell_isRunning (s : TimerState) :
    (cancelScheduledBell s).isRunning = s.isRunning := by
  unfold cancelScheduledBell; split <;> rfl

@[simp] lemma cancelScheduledBell_interval (s : TimerState) :
    (cancelScheduledBell s).interval = s.interval := by
  unfold cancelScheduledBell; split <;> rfl

@[simp] lemma cancelScheduledBell_endTime (s : TimerState) :
    (cancelScheduledBell s).endTime = s.endTime := by
  unfold cancelScheduledBell; split <;> rfl

@[simp] lemma scheduleBell_duration (s : TimerState) :
    (scheduleBell s).duration = s.duration := by
  unfold scheduleBell; split <;> simp

@[simp] lemma scheduleBell_remaining (s : TimerState) :
    (scheduleBell s).remaining = s.remaining := by
  unfold scheduleBell; split <;> simp

@[simp] lemma scheduleBell_isRunning (s : TimerState) :
    (scheduleBell s).isRunning = s.isRunning := by
  unfold scheduleBell; split <;> simp

@[simp] lemma scheduleBell_interval (s : TimerState) :
    (scheduleBell s).interval = s.interval := by
  unfold scheduleBell; split <;> simp

@[simp] lemma scheduleBell_endTime (s : TimerState) :
    (scheduleBell s).endTime = s.endTime := by
  unfold scheduleBell; split <;> simp

@[simp] lemma playBellNow_fst_duration (s : TimerState) :
    (playBellNow s).1.duration = s.duration := by
  unfold playBellNow; split <;> rfl

@[simp] lemma playBellNow_fst_remaining (s : TimerState) :
    (playBellNow s).1.remaining = s.remaining := by
  unfold playBellNow; split <;> rfl

@[simp] lemma playBellNow_fst_isRunning (s : TimerState) :
    (playBellNow s).1.isRunning = s.isRunning := by
  unfold playBellNow; split <;> rfl

@[simp] lemma playBellNow_fst_interval (s : TimerState) :
    (playBellNow s).1.interval = s.interval := by
  unfold playBellNow; split <;> rfl

@[simp] lemma playBellNow_fst_endTime (s : TimerState) :
    (playBellNow s).1.endTime = s.endTime := by
  unfold playBellNow; split <;> rfl

@[simp] lemma stopTimer_duration (s : TimerState) :
    (stopTimer s).duration = s.duration := by
  unfold stopTimer; dsimp only; split <;> simp

@[simp] lemma stopTimer_remaining (s : TimerState) :
    (stopTimer s).remaining = s.remaining := by
  unfold stopTimer; dsimp only; split <;> simp

@[simp] lemma stopTimer_isRunning (s : TimerState) :
    (stopTimer s).isRunning = false := by
  unfold stopTimer; dsimp only; split <;> simp

@[simp] lemma stopTimer_interval (s : TimerState) :
    (stopTimer s).interval = false := by
  unfold stopTimer; dsimp only; split <;> simp_all

@[simp] lemma stopTimer_endTime (s : TimerState) :
    (stopTimer s).endTime = none := by
  unfold stopTimer; dsimp only; split <;> simp

@[simp] lemma stopKeepAlive_scheduledBell (s : TimerState) :
    (stopKeepAlive s).scheduledBell = s.scheduledBell := by
  unfold stopKeepAlive; split <;> rfl

@[simp] lemma stopKeepAlive_keepAlive (s : TimerState) :
    (stopKeepAlive s).keepAlive = false := by
  unfold stopKeepAlive; split <;> simp_all

@[simp] lemma cancelScheduledBell_scheduledBell (s : TimerState) :
    (cancelScheduledBell s).scheduledBell = false := by
  unfold cancelScheduledBell; split <;> simp_all

@[simp] lemma cancelScheduledBell_keepAlive (s : TimerState) :
    (cancelScheduledBell s).keepAlive = s.keepAlive := by
  unfold cancelScheduledBell; split <;> rfl

@[simp] lemma stopTimer_scheduledBell (s : TimerState) :
    (stopTimer s).scheduledBell = false := by
  unfold stopTimer; dsimp only; split <;> simp

@[simp] lemma stopTimer_keepAlive (s : TimerState) :
    (stopTimer s).keepAlive = false := by
  unfold stopTimer; dsimp only; split <;> simp

@[simp] lemma tick_fst_duration (now : Int) (s : TimerState) :
    (tick now s).1.duration = s.duration := by
  unfold tick; dsimp only; split
  · simp
  · rfl

@[simp] lemma adjustTime_isRunning (ty : AdjType) (delta : Int)
    (s : TimerState) : (adjustTime ty delta s).isRunning = s.isRunning := by
  unfold adjustTime
  split
  · rfl
  · cases ty <;> dsimp only <;> split_ifs <;> rfl

@[simp] lemma adjustTime_interval (ty : AdjType) (delta : Int)
    (s : TimerState) : (adjustTime ty delta s).interval = s.interval := by
  unfold adjustTime
  split
  · rfl
  · cases ty <;> dsimp only <;> split_ifs <;> rfl

@[simp] lemma adjustTime_endTime (ty : AdjType) (delta : Int)
    (s : TimerState) : (adjustTime ty delta s).endTime = s.endTime := by
  unfold adjustTime
  split
  · rfl
  · cases ty <;> dsimp only <;> split_ifs <;> rfl

@[simp] lemma resetTimer_duration (s : TimerState) :
    (resetTimer s).duration = s.duration := by
  unfold resetTimer; simp

@[simp] lemma resetTimer_remaining (s : TimerState) :
    (resetTimer s).remaining = s.duration := by
  unfold resetTimer; simp

@[simp] lemma resetTimer_isRunning (s : TimerState) :
    (resetTimer s).isRunning = false := by
  unfold resetTimer; simp

@[simp] lemma resetTimer_endTime (s : TimerState) :
    (resetTimer s).endTime = none := by
  unfold resetTimer; simp

@[simp] lemma startTimer_duration (now : Int) (s : TimerState) :
    (startTimer now s).duration = s.duration := by
  unfold startTimer; simp

@[simp] lemma startTimer_remaining (now : Int) (s : TimerState) :
    (startTimer now s).remaining = s.remaining := by
  unfold startTimer; simp

@[simp] lemma startTimer_isRunning (now : Int) (s : TimerState) :
    (startTimer now s).isRunning = true := by
  unfold startTimer; simp

/-!
Variant models.  The repository carries alternative implementations of the
same timer.  Two of them are embedded because claims cite them:
the pre-rendered-WAV variant (first half of `src/unnamed/part_002`), whose
`tick` begins with an `isRunning` guard, and the silence-plus-bell WAV
variant (second half of `src/unnamed/part_000`), whose `stopTimer`
recomputes `remaining` from `endTime` one last time.
-/

/-- The `timerState` of the pre-rendered-WAV variant
(`src/unnamed/part_002` lines 27-38); media handles and blob URLs are
modelled as presence flags. -/
structure P2State where
  duration : Int
  remaining : Int
  endTime : Option Int
  isRunning : Bool
  interval : Bool
  silentWavUrl : Bool
  keepAliveEl : Bool
  bellWavUrl : Bool
  bellEl : Bool
  bellReady : Bool
deriving DecidableEq, Repr

/-- Model of `stopKeepAlive` of the WAV variant: pause and drop the keep-alive
audio element if present. -/
def stopKeepAliveP2 (s : P2State) : P2State :=
  if s.keepAliveEl then { s with keepAliveEl := false } else s

/-- Model of `playBell` of the WAV variant (`src/unnamed/part_002` lines 212-244),
instrumented with the chime count.  `webAudio` says whether the host can
construct an AudioContext in the final fallback; its failure is caught by
the source's try/catch, producing no chime and no error. -/
def playBellP2 (webAudio : Bool) (s : P2State) : P2State × Nat :=
  if s.bellEl then ({ s with bellEl := false }, 1)
  else if s.bellWavUrl then (s, 1)
  else if webAudio then (s, 1) else (s, 0)

/-- Model of `tick` of the WAV variant (`src/unnamed/part_002` lines 248-267).
Unlike the main file, it returns immediately when the timer is not
running. -/
def tickP2 (webAudio : Bool) (now : Int) (s : P2State) : P2State × Nat :=
  if !s.isRunning then (s, 0)
  else
    let rem := max 0 (ceilDiv1000 (endTimeVal s.endTime - now))
    let s1 := { s with remaining := rem }
    if rem ≤ 0 then
      let s2 := stopKeepAliveP2 { s1 with isRunning := false, interval := false }
      let p := playBellP2 webAudio s2
      ({ p.1 with remaining := p.1.duration }, p.2)
    else
      (s1, 0)

/-- The `timerState` of the silence-plus-bell WAV variant
(`src/unnamed/part_000` lines 211-219). -/
structure WState where
  duration : Int
  remaining : Int
  endTime : Option Int
  isRunning : Bool
  interval : Bool
  timerAudio : Bool
  timerAudioUrl : Bool
deriving DecidableEq, Repr

/-- Model of `cleanupAudio` of the silence-plus-bell variant: pause and drop the
audio element, revoke and drop the blob URL. -/
def cleanupAudioW (s : WState) : WState :=
  let s1 := if s.timerAudio then { s with timerAudio := false } else s
  if s1.timerAudioUrl then { s1 with timerAudioUrl := false } else s1

/-- Model of `stopTimer` of the silence-plus-bell variant (`src/unnamed/part_000`
lines 376-388): when running with a truthy end time, it recomputes
`remaining` from `endTime` against the current clock before clearing the
run state. -/
def stopTimerW (now : Int) (s : WState) : WState :=
  let s1 :=
    if s.isRunning && jsTruthyOpt s.endTime then
      { s with remaining := max 0 (ceilDiv1000 (endTimeVal s.endTime - now)) }
    else s
  let s2 := { s1 with isRunning := false, endTime := none }
  let s3 := if s2.interval then { s2 with interval := false } else s2
  cleanupAudioW s3

/-!
Reachability invariants for the main variant: from the initial state,
every sequence of operations keeps the duration at least 5 and the
remaining time nonnegative.
-/

/-- Combined inductive invariant used for the duration and remaining
bounds. -/
def DurRemInv (s : TimerState) : Prop :=
  5 ≤ s.duration ∧ 0 ≤ s.remaining

lemma adjustTime_inv (ty : AdjType) (delta : Int) (s : TimerState)
    (h : DurRemInv s) : DurRemInv (adjustTime ty delta s) := by
  obtain ⟨h1, h2⟩ := h
  unfold adjustTime DurRemInv
  split
  · exact ⟨h1, h2⟩
  · cases ty <;> dsimp only <;> split_ifs <;>
      first
        | exact ⟨h1, h2⟩
        | (constructor <;> simp_all <;> omega)

lemma tick_inv (now : Int) (s : TimerState) (h : DurRemInv s) :
    DurRemInv (tick now s).1 := by
  obtain ⟨h1, h2⟩ := h
  unfold tick DurRemInv
  dsimp only
  split
  · simp only [playBellNow_fst_duration, stopKeepAlive_duration]
    exact ⟨h1, by omega⟩
  · exact ⟨h1, le_max_left 0 _⟩

lemma applyOp_inv (s : TimerState) (op : Op) (h : DurRemInv s) :
    DurRemInv (applyOp s op) := by
  cases op with
  | start now =>
      obtain ⟨h1, h2⟩ := h
      exact ⟨by simp [applyOp]; exact h1, by simp [applyOp]; exact h2⟩
  | stop =>
      obtain ⟨h1, h2⟩ := h
      exact ⟨by simp [applyOp]; exact h1, by simp [applyOp]; exact h2⟩
  | tickOp now => exact tick_inv now s h
  | adjust ty delta => exact adjustTime_inv ty delta s h
  | reset =>
      obtain ⟨h1, h2⟩ := h
      exact ⟨by simp [applyOp]; exact h1, by simp [applyOp]; omega⟩

lemma runOps_inv (ops : List Op) (s : TimerState) (h : DurRemInv s) :
    DurRemInv (runOps s ops) := by
  induction ops generalizing s with
  | nil => exact h
  | cons op rest ih => exact ih (applyOp s op) (applyOp_inv s op h)

/-- Inductive invariant for the four adjustment buttons: the duration is
a multiple of five between 5 and 3655. -/
def BtnInv (s : TimerState) : Prop :=
  5 ≤ s.duration ∧ s.duration ≤ 3655 ∧ s.duration % 5 = 0

lemma adjustTime_btnInv (ty : AdjType) (delta : Int) (s : TimerState)
    (hd : ty = AdjType.min ∨ delta % 5 = 0) (h : BtnInv s) :
    BtnInv (adjustTime ty delta s) := by
  obtain ⟨h1, h2, h3⟩ := h
  have hf : s.duration.fdiv 60 = s.duration / 60 :=
    Int.fdiv_eq_ediv _ (by norm_num)
  have ht : s.duration.tmod 60 = s.duration % 60 :=
    Int.tmod_eq_emod (by omega) (by norm_num)
  unfold BtnInv adjustTime
  split
  · exact ⟨h1, h2, h3⟩
  · cases ty with
    | min =>
        dsimp only
        rw [hf, ht]
        split_ifs <;>
          first
            | exact ⟨h1, h2, h3⟩
            | (refine ⟨?_, ?_, ?_⟩ <;> dsimp only <;> omega)
    | sec =>
        have h5 : delta % 5 = 0 := by
          rcases hd with hd | hd
          · exact absurd hd (by simp)
          · exact hd
        dsimp only
        rw [hf, ht]
        split_ifs <;>
          first
            | exact ⟨h1, h2, h3⟩
            | (refine ⟨?_, ?_, ?_⟩ <;> dsimp only <;> omega)

lemma pressBtn_btnInv (s : TimerState) (b : AdjBtn) (h : BtnInv s) :
    BtnInv (pressBtn s b) := by
  cases b with
  | minUp => exact adjustTime_btnInv .min 1 s (Or.inl rfl) h
  | minDown => exact adjustTime_btnInv .min (-1) s (Or.inl rfl) h
  | secUp => exact adjustTime_btnInv .sec 5 s (Or.inr (by decide)) h
  | secDown => exact adjustTime_btnInv .sec (-5) s (Or.inr (by decide)) h

lemma runBtns_btnInv (bs : List AdjBtn) (s : TimerState) (h : BtnInv s) :
    BtnInv (runBtns s bs) := by
  induction bs generalizing s with
  | nil => exact h
  | cons b rest ih => exact ih (pressBtn s b) (pressBtn_btnInv s b h)

/-- Remaining time just computed is nonpositive whenever the clock has
reached the end timestamp. -/
lemma ceilDiv1000_nonpos {x : Int} (h : x ≤ 0) : ceilDiv1000 x ≤ 0 := by
  unfold ceilDiv1000
  rw [Int.fdiv_eq_ediv _ (by norm_num : (0:Int) ≤ 1000)]
  omega

/-- A tick on an expired running state takes the completion branch: the
timer goes idle, the heartbeat handle is cleared, and the completion
signal fires exactly once in this call. -/
lemma tick_expired (now : Int) (s : TimerState) (e : Int)
    (hend : s.endTime = some e) (hpast : e ≤ now) :
    (tick now s).1.isRunning = false ∧ (tick now s).1.interval = false ∧
    (tick now s).2 = 1 := by
  have hrem : max 0 (ceilDiv1000 (endTimeVal s.endTime - now)) ≤ 0 := by
    rw [hend]
    have := ceilDiv1000_nonpos (x := e - now) (by omega)
    simp only [endTimeVal]
    omega
  unfold tick
  dsimp only
  rw [if_pos hrem]
  refine ⟨?_, ?_, rfl⟩ <;> simp

/-- Once idle with no live heartbeat handle, no trigger source delivers a
tick: every trigger event leaves the state unchanged and fires nothing. -/
lemma runTriggers_idle (s : TimerState) (hrun : s.isRunning = false)
    (hint : s.interval = false) (evs : List Trigger) :
    runTriggers s evs = (s, 0) := by
  induction evs with
  | nil => rfl
  | cons ev rest ih =>
      cases ev with
      | intervalFire now => simp [runTriggers, fireTrigger, hint, ih]
      | visibilityVisible now => simp [runTriggers, fireTrigger, hrun, ih]

/-! The claims. -/

/-- C1: for a run whose end timestamp has been passed by the host clock,
one call to `tick` — however many intervening ticks were skipped —
moves the state out of Running exactly once and fires the completion
signal exactly once, and every further trigger event (periodic
heartbeat, visibility change) leaves the state unchanged and fires
nothing, because the heartbeat handle is cleared and the trigger call
sites check the running flag. -/
theorem c1_completion_exactly_once (s : TimerState) (e now : Int)
    (hrun : s.isRunning = true) (hend : s.endTime = some e)
    (hpast : e ≤ now) (evs : List Trigger) :
    (tick now s).1.isRunning = false ∧ (tick now s).2 = 1 ∧
    runTriggers (tick now s).1 evs = ((tick now s).1, 0) := by
  obtain ⟨ha, hb, hc⟩ := tick_expired now s e hend hpast
  exact ⟨ha, hc, runTriggers_idle _ ha hb evs⟩

/-- Witness for C1: the default 600-second run started at time 0 and
ticked once at 600000 ms completes once, and two later trigger events
change nothing. -/
theorem c1_completion_exactly_once_witness :
    (tick 600000 (startTimer 0 initialState)).1.isRunning = false ∧
    (tick 600000 (startTimer 0 initialState)).2 = 1 ∧
    runTriggers (tick 600000 (startTimer 0 initialState)).1
        [Trigger.intervalFire 700000, Trigger.visibilityVisible 800000] =
      ((tick 600000 (startTimer 0 initialState)).1, 0) :=
  c1_completion_exactly_once (startTimer 0 initialState) 600000 600000
    (by decide) (by decide) (by decide) _

/-- C2 counterexample: pausing a run one second in leaves an idle state
whose remaining time (599) differs from its duration (600), refuting
the claim that `remaining = duration` whenever `running` is false. -/
theorem c2_pause_breaks_idle_remaining :
    (stopTimer (tick 1000 (startTimer 0 initialState)).1).isRunning = false ∧
    (stopTimer (tick 1000 (startTimer 0 initialState)).1).remaining ≠
      (stopTimer (tick 1000 (startTimer 0 initialState)).1).duration := by
  constructor <;> decide

/-- C2 amended: every tick that leaves the timer running refreshes
`remaining` to `max 0 (ceil((endTime - now)/1000))`; a tick that ends
the run leaves an idle state with `remaining = duration`; and
`remaining = duration` holds initially and is preserved by
`adjustTime` and by `resetTimer` — but not by a mid-run `stopTimer`,
which keeps the last observed countdown value. -/
theorem c2_remaining_recompute_amended (s : TimerState) (now : Int) :
    ((tick now s).1.isRunning = true →
      (tick now s).1.remaining =
        max 0 (ceilDiv1000 (endTimeVal s.endTime - now)))
    ∧ (s.isRunning = true → (tick now s).1.isRunning = false →
      (tick now s).1.remaining = (tick now s).1.duration)
    ∧ initialState.remaining = initialState.duration
    ∧ (s.remaining = s.duration → ∀ (ty : AdjType) (delta : Int),
      (adjustTime ty delta s).remaining = (adjustTime ty delta s).duration)
    ∧ (resetTimer s).remaining = (resetTimer s).duration := by
  refine ⟨?_, ?_, rfl, ?_, by simp⟩
  · unfold tick
    dsimp only
    split
    · intro hcontra
      simp at hcontra
    · intro _
      rfl
  · unfold tick
    dsimp only
    split
    · intro _ _
      simp
    · intro h1 h2
      dsimp only at h2
      rw [h1] at h2
      exact absurd h2 (by simp)
  · intro hrd ty delta
    unfold adjustTime
    split
    · exact hrd
    · cases ty <;> dsimp only <;> split_ifs <;> first | exact hrd | rfl

/-- Witness for C2 amended: an expiring tick of the default run ends
with `remaining = duration`. -/
theorem c2_remaining_recompute_amended_witness :
    (tick 600000 (startTimer 0 initialState)).1.remaining =
      (tick 600000 (startTimer 0 initialState)).1.duration :=
  (c2_remaining_recompute_amended (startTimer 0 initialState) 600000).2.1
    (by decide) (by decide)

/-- C3 counterexample: from an idle 0m58s state, the seconds-up
adjustment yields 60 seconds (1m00s), not the claimed total-preserving
63 seconds (1m03s). -/
theorem c3_carry_not_total_preserving :
    (adjustTime .sec 5
        { initialState with duration := 58, remaining := 58 }).duration = 60 ∧
    (60 : Int) ≠ 63 := by
  constructor <;> decide

/-- C3 amended: crossing the seconds boundary snaps rather than carries
exactly — on a carry the seconds are set to 0 (0m58s plus 5 gives
1m00s), on a borrow they are set to 55 (1m02s minus 5 gives 0m55s), and
from 0m02s minus 5 the borrow path with minutes already 0 still
produces an accepted 0m55s rather than rejecting the adjustment. -/
theorem c3_carry_snap_amended :
    (adjustTime .sec 5
        { initialState with duration := 58, remaining := 58 }).duration = 60
    ∧ (adjustTime .sec (-5)
        { initialState with duration := 62, remaining := 62 }).duration = 55
    ∧ (adjustTime .sec (-5)
        { initialState with duration := 2, remaining := 2 }).duration = 55
    ∧ (adjustTime .sec (-5)
        { initialState with duration := 2, remaining := 2 }).remaining = 55 := by
  refine ⟨?_, ?_, ?_, ?_⟩ <;> decide

set_option maxRecDepth 40000 in
/-- C4 counterexample: fifty minute-up presses from the default reach
3600, and one further seconds-up press is accepted and produces a
duration of 3605, outside the claimed range of at most 3600. -/
theorem c4_duration_exceeds_3600 :
    (runBtns initialState
        (List.replicate 50 .minUp ++ [.secUp])).duration = 3605 ∧
    ¬((runBtns initialState
        (List.replicate 50 .minUp ++ [.secUp])).duration ≤ 3600) := by
  constructor <;> decide

set_option maxRecDepth 40000 in
/-- C4 amended: every sequence of button adjustments from the default
600 keeps the duration a multiple of five in the range 5 to 3655; 5,
3600 and 3655 are reachable; at 5 both downward adjustments leave the
duration at 5 and at 3600 the minute-up press is a no-op, but the
seconds-up press at 3600 is accepted and yields 3605, so the true
ceiling is 3655, not 3600. -/
theorem c4_duration_bounds_amended :
    (∀ bs : List AdjBtn,
      5 ≤ (runBtns initialState bs).duration ∧
      (runBtns initialState bs).duration ≤ 3655 ∧
      (runBtns initialState bs).duration % 5 = 0)
    ∧ (runBtns initialState
        (List.replicate 9 .minDown ++ List.replicate 11 .secDown)).duration = 5
    ∧ (runBtns initialState (List.replicate 50 .minUp)).duration = 3600
    ∧ (runBtns initialState
        (List.replicate 50 .minUp ++ List.replicate 11 .secUp)).duration = 3655
    ∧ (pressBtn (runBtns initialState
        (List.replicate 9 .minDown ++ List.replicate 11 .secDown))
          .secDown).duration = 5
    ∧ (pressBtn (runBtns initialState
        (List.replicate 9 .minDown ++ List.replicate 11 .secDown))
          .minDown).duration = 5
    ∧ (pressBtn (runBtns initialState
        (List.replicate 50 .minUp)) .minUp).duration = 3600
    ∧ (pressBtn (runBtns initialState
        (List.replicate 50 .minUp)) .secUp).duration = 3605 := by
  refine ⟨?_, by decide, by decide, by decide, by decide, by decide,
    by decide, by decide⟩
  intro bs
  exact runBtns_btnInv bs initialState ⟨by decide, by decide, by decide⟩

/-- C5 counterexample: in the main variant `tick` has no running guard,
so calling it on an idle (paused) state with a live audio context is
not a no-op — it fires the completion signal once and overwrites the
paused remaining time (599) with the duration (600). -/
theorem c5_tick_idle_not_noop :
    (stopTimer (tick 1000 (startTimer 0 initialState)).1).isRunning = false ∧
    (tick 2000 (stopTimer (tick 1000 (startTimer 0 initialState)).1)).2 = 1 ∧
    (tick 2000 (stopTimer
        (tick 1000 (startTimer 0 initialState)).1)).1.remaining ≠
      (stopTimer (tick 1000 (startTimer 0 initialState)).1).remaining := by
  refine ⟨?_, ?_, ?_⟩ <;> decide

/-- C5 amended: the no-op-when-idle property holds for the guarded
variant's `tick` (it returns immediately when not running, changing
nothing and firing nothing), and in the main variant it holds at the
trigger-source level — with the timer idle and the heartbeat handle
cleared, neither an interval firing nor a visibility change invokes
`tick` — but the main variant's bare `tick` itself has no guard. -/
theorem c5_tick_idle_amended (webAudio : Bool) (now : Int) (p : P2State)
    (s : TimerState) (hp : p.isRunning = false) (hs : s.isRunning = false)
    (hint : s.interval = false) :
    tickP2 webAudio now p = (p, 0)
    ∧ fireTrigger s (.intervalFire now) = (s, 0)
    ∧ fireTrigger s (.visibilityVisible now) = (s, 0) := by
  refine ⟨?_, ?_, ?_⟩
  · unfold tickP2
    rw [hp]
    rfl
  · simp [fireTrigger, hint]
  · simp [fireTrigger, hs]

/-- Witness for C5 amended: the idle initial states of both variants. -/
theorem c5_tick_idle_amended_witness :
    tickP2 true 1000
        ⟨600, 600, none, false, false, false, false, false, false, false⟩ =
      (⟨600, 600, none, false, false, false, false, false, false, false⟩, 0)
    ∧ fireTrigger initialState (.intervalFire 1000) = (initialState, 0)
    ∧ fireTrigger initialState (.visibilityVisible 1000) =
        (initialState, 0) :=
  c5_tick_idle_amended true 1000
    ⟨600, 600, none, false, false, false, false, false, false, false⟩
    initialState (by decide) (by decide) (by decide)

/-- C6 counterexample: stopping the default run long after its start
leaves `remaining` at the stale value 600 from the last observation,
not at the claimed recomputation max(0, ceil((600000 - 100000)/1000))
= 500 — the main variant's `stopTimer` never reads the clock. -/
theorem c6_stop_no_recompute :
    (startTimer 0 initialState).isRunning = true ∧
    (stopTimer (startTimer 0 initialState)).remaining = 600 ∧
    max 0 (ceilDiv1000
        (endTimeVal (startTimer 0 initialState).endTime - 100000)) = 500 ∧
    (600 : Int) ≠ 500 := by
  refine ⟨?_, ?_, ?_, ?_⟩ <;> decide

/-- C6 amended: from a Running state the main variant's `stopTimer`
sets running to false, clears the end timestamp, cancels the heartbeat,
disarms the signal mechanism (scheduled bell and keep-alive), and
leaves `remaining` and `duration` unchanged — it does not recompute
`remaining`; the recompute-one-last-time step exists only in the
silence-plus-bell WAV variant's `stopTimer`. -/
theorem c6_stop_effects_amended (s : TimerState) (w : WState) (now e : Int)
    (hrun : s.isRunning = true) (hw : w.isRunning = true)
    (hwe : w.endTime = some e) (he : e ≠ 0) :
    (stopTimer s).isRunning = false ∧ (stopTimer s).endTime = none ∧
    (stopTimer s).interval = false ∧ (stopTimer s).scheduledBell = false ∧
    (stopTimer s).keepAlive = false ∧ (stopTimer s).remaining = s.remaining ∧
    (stopTimer s).duration = s.duration ∧
    (stopTimerW now w).remaining = max 0 (ceilDiv1000 (e - now)) := by
  refine ⟨by simp, by simp, by simp, by simp, by simp, by simp, by simp, ?_⟩
  unfold stopTimerW cleanupAudioW
  dsimp only
  rw [hw, hwe]
  simp only [jsTruthyOpt, endTimeVal, he, bne_iff_ne, ne_eq,
    not_false_iff, Bool.true_and, if_true]
  split <;> split <;> split <;> rfl

/-- Witness for C6 amended: the started default run and a concrete
running WAV-variant state stopped at 100000 ms. -/
theorem c6_stop_effects_amended_witness :
    (stopTimer (startTimer 0 initialState)).isRunning = false ∧
    (stopTimer (startTimer 0 initialState)).endTime = none ∧
    (stopTimer (startTimer 0 initialState)).interval = false ∧
    (stopTimer (startTimer 0 initialState)).scheduledBell = false ∧
    (stopTimer (startTimer 0 initialState)).keepAlive = false ∧
    (stopTimer (startTimer 0 initialState)).remaining =
      (startTimer 0 initialState).remaining ∧
    (stopTimer (startTimer 0 initialState)).duration =
      (startTimer 0 initialState).duration ∧
    (stopTimerW 100000
        ⟨600, 600, some 600000, true, true, true, true⟩).remaining =
      max 0 (ceilDiv1000 (600000 - 100000)) :=
  c6_stop_effects_amended (startTimer 0 initialState)
    ⟨600, 600, some 600000, true, true, true, true⟩ 100000 600000
    (by decide) (by decide) (by decide) (by decide)

/-- C7 counterexample: `resetTimer` called on a Running state is not a
no-op — it stops the run, so the state after the call differs from the
state before it. -/
theorem c7_reset_not_noop_while_running :
    (startTimer 0 initialState).isRunning = true ∧
    resetTimer (startTimer 0 initialState) ≠ startTimer 0 initialState := by
  constructor <;> decide

/-- C7 amended: while running, `adjustTime` is a strict no-op, but
`resetTimer` is not — it stops the timer (running becomes false, end
timestamp cleared) and sets `remaining` to `duration`. -/
theorem c7_adjust_noop_reset_stops_amended (s : TimerState) (ty : AdjType)
    (delta : Int) (hrun : s.isRunning = true) :
    adjustTime ty delta s = s ∧
    (resetTimer s).isRunning = false ∧ (resetTimer s).endTime = none ∧
    (resetTimer s).remaining = s.duration ∧
    (resetTimer s).duration = s.duration := by
  refine ⟨?_, by simp, by simp, by simp, by simp⟩
  unfold adjustTime
  rw [hrun]
  rfl

/-- Witness for C7 amended: the started default run with the minute-up
adjustment. -/
theorem c7_adjust_noop_reset_stops_amended_witness :
    adjustTime .min 1 (startTimer 0 initialState) =
      startTimer 0 initialState ∧
    (resetTimer (startTimer 0 initialState)).isRunning = false ∧
    (resetTimer (startTimer 0 initialState)).endTime = none ∧
    (resetTimer (startTimer 0 initialState)).remaining =
      (startTimer 0 initialState).duration ∧
    (resetTimer (startTimer 0 initialState)).duration =
      (startTimer 0 initialState).duration :=
  c7_adjust_noop_reset_stops_amended (startTimer 0 initialState) .min 1
    (by decide)

/-- C8 counterexample: with a live audio context, two consecutive calls
to `playBellNow` produce two perceptible chimes, not at most one — the
function is not idempotent. -/
theorem c8_two_calls_two_chimes :
    (playBellNow (startTimer 0 initialState)).2 +
        (playBellNow (playBellNow (startTimer 0 initialState)).1).2 = 2 ∧
    ¬((playBellNow (startTimer 0 initialState)).2 +
        (playBellNow (playBellNow (startTimer 0 initialState)).1).2 ≤ 1) := by
  constructor <;> decide

/-- C8 amended: `playBellNow` never throws and degrades silently — with
no audio context obtainable it returns without playing and without
error, and any single call produces at most one chime — but it is not
idempotent: every call with an available context produces a chime, so
at most one chime per run is ensured only by the call site, not by the
function. -/
theorem c8_bell_silent_failure_amended (s : TimerState) :
    (s.audioContext = none → playBellNow s = (s, 0)) ∧
    (playBellNow s).2 ≤ 1 ∧
    (∀ c, s.audioContext = some c → (playBellNow s).2 = 1) := by
  refine ⟨?_, ?_, ?_⟩
  · intro h
    unfold playBellNow
    rw [h]
  · unfold playBellNow
    split <;> simp
  · intro c h
    unfold playBellNow
    rw [h]
    cases c <;> rfl

/-- Witness for C8 amended: the initial state has no audio context and
the bell call is a silent no-op there. -/
theorem c8_bell_silent_failure_amended_witness :
    playBellNow initialState = (initialState, 0) :=
  (c8_bell_silent_failure_amended initialState).1 rfl

/-- C9: from the initial state, every sequence of operations (start,
stop, tick, adjust, reset) keeps the duration at least 5 seconds: the
initial duration is 600 and the only write to duration commits values
of at least 5. -/
theorem c9_duration_at_least_five (ops : List Op) :
    5 ≤ (runOps initialState ops).duration :=
  (runOps_inv ops initialState ⟨by decide, by decide⟩).1

/-- C10: from the initial state, every sequence of operations keeps the
remaining time a nonnegative integer: tick clamps with max 0, adjust
commits only values of at least 5, and reset copies the duration. -/
theorem c10_remaining_nonneg (ops : List Op) :
    0 ≤ (runOps initialState ops).remaining :=
  (runOps_inv ops initialState ⟨by decide, by decide⟩).2

end Buddha
